import Mathlib

/-!
Verification of the WIP (work-in-progress) calculation core of the repository:
the field cascade in `app/services/wip_calculations.py` (class `WIPCalculator`)
and the period comparator in `app/services/wip_service.py`
(`WIPService._detect_significant_changes`).

Modelling choices:
* Python `Decimal` money values are modelled as exact rationals `ℚ`; a missing
  value (Python `None`) is `Option ℚ`'s `none`.
* `Decimal.quantize(Decimal("0.01"))` is called without a rounding argument in
  the source, so it uses the default context rounding `ROUND_HALF_EVEN`
  (banker's rounding).  `quantize2` below implements exactly that: round the
  value to the nearest multiple of 1/100, ties to the even multiple.
* Decimal division in Python rounds to 28 significant digits; it is modelled
  here as exact rational division.  All concrete evaluations in this file use
  values whose quotients are exactly representable well within 28 digits.
* The `Dict[str, Any]` threaded through `calculate_all_fields` is modelled as
  a total function `String → Option ℚ`; `dict.get` of an absent key and a key
  stored as `None` are both `none`, which matches every read the code performs.
-/

namespace WIP

/-- Round a rational to the nearest integer, ties to even
(Python `ROUND_HALF_EVEN`). -/
def rndHalfEven (x : ℚ) : ℤ :=
  if x - (⌊x⌋ : ℚ) < 1/2 then ⌊x⌋
  else if 1/2 < x - (⌊x⌋ : ℚ) then ⌊x⌋ + 1
  else if Even ⌊x⌋ then ⌊x⌋ else ⌊x⌋ + 1

/-- `Decimal.quantize(Decimal("0.01"))` under the default context: round to the
nearest multiple of 1/100, ties to even. -/
def quantize2 (x : ℚ) : ℚ := (rndHalfEven (x * 100) : ℚ) / 100

/-- Modelled from the spec: the rounding the spec claims
(`round2` as round-half-up: ties away from the nearest smaller multiple,
toward the larger absolute value).  Used only to compare the spec's claimed
rounding mode against the code's `quantize2`. -/
def quantize2HalfUp (x : ℚ) : ℚ :=
  let y : ℚ := x * 100
  let n : ℤ := if 0 ≤ y then ⌊y + 1/2⌋ else -⌊-y + 1/2⌋
  (n : ℚ) / 100

/-- Guarded sum used by the cascade: `a + b` when both operands are present
(`if x is not None and y is not None`), else absent. -/
def addOpt (a b : Option ℚ) : Option ℚ :=
  match a, b with
  | some x, some y => some (x + y)
  | _, _ => none

/-- Guarded difference used by the cascade: `a - b` when both operands are
present, else absent (all `current - prior` variances and both margin
subtractions in the source have this exact shape). -/
def subOpt (a b : Option ℚ) : Option ℚ :=
  match a, b with
  | some x, some y => some (x - y)
  | _, _ => none

/-- Guarded quantized percentage ratio used by the cascade:
`(num / den * 100).quantize(Decimal("0.01"))` when both operands are present
and the denominator is strictly positive, else absent (the source repeats this
exact guard for `us_gaap_percent_completion`,
`estimated_job_margin_to_date_percent_sales` and
`current_month_estimated_job_margin_percent_sales`). -/
def ratioPct (num den : Option ℚ) : Option ℚ :=
  match num, den with
  | some n, some d => if 0 < d then some (quantize2 (n / d * 100)) else none
  | _, _ => none

/-- Line 20-25 of `wip_calculations.py`: total contract is
`original + change_orders` when both are present, `original` when only the
original is present, else absent. -/
def totalContractCalc (original_contract_amount change_order_amount : Option ℚ) :
    Option ℚ :=
  match original_contract_amount, change_order_amount with
  | some o, some c => some (o + c)
  | some o, none => some o
  | none, _ => none

/-- Line 84-89 of `wip_calculations.py`:
`revenue_earned = (total_contract_amount * percent_completion / 100).quantize(...)`
when both are present, else absent. -/
def revenueCalc (total_contract_amount percent_completion : Option ℚ) :
    Option ℚ :=
  match total_contract_amount, percent_completion with
  | some t, some p => some (quantize2 (t * p / 100))
  | _, _ => none

/-- `WIPCalculator.calculate_contract_fields`: returns
(`current_month_total_contract_amount`, `current_vs_prior_contract_variance`). -/
def calculate_contract_fields (original_contract_amount : Option ℚ)
    (change_order_amount : Option ℚ) (prior_month_total_contract : Option ℚ) :
    Option ℚ × Option ℚ :=
  let total_contract : Option ℚ :=
    totalContractCalc original_contract_amount change_order_amount
  let contract_variance : Option ℚ :=
    subOpt total_contract prior_month_total_contract
  (total_contract, contract_variance)

/-- `WIPCalculator.calculate_cost_fields`: returns
(`current_month_estimated_final_cost`,
`current_vs_prior_estimated_final_cost_variance`). -/
def calculate_cost_fields (cost_to_date : Option ℚ)
    (estimated_cost_to_complete : Option ℚ)
    (prior_month_estimated_final_cost : Option ℚ) : Option ℚ × Option ℚ :=
  let estimated_final_cost : Option ℚ :=
    addOpt cost_to_date estimated_cost_to_complete
  let final_cost_variance : Option ℚ :=
    subOpt estimated_final_cost prior_month_estimated_final_cost
  (estimated_final_cost, final_cost_variance)

/-- `WIPCalculator.calculate_us_gaap_fields`: returns
(`us_gaap_percent_completion`, `revenue_earned_to_date_us_gaap`,
`estimated_job_margin_to_date_us_gaap`,
`estimated_job_margin_to_date_percent_sales`). -/
def calculate_us_gaap_fields (total_contract_amount : Option ℚ)
    (cost_to_date : Option ℚ) (estimated_final_cost : Option ℚ) :
    Option ℚ × Option ℚ × Option ℚ × Option ℚ :=
  let percent_completion : Option ℚ := ratioPct cost_to_date estimated_final_cost
  let revenue_earned : Option ℚ :=
    revenueCalc total_contract_amount percent_completion
  let job_margin_to_date : Option ℚ := subOpt revenue_earned cost_to_date
  let job_margin_percent_sales : Option ℚ :=
    ratioPct job_margin_to_date revenue_earned
  (percent_completion, revenue_earned, job_margin_to_date,
    job_margin_percent_sales)

/-- `WIPCalculator.calculate_job_margin_fields`: returns
(`current_month_estimated_job_margin_at_completion`,
`current_vs_prior_estimated_job_margin`,
`current_month_estimated_job_margin_percent_sales`). -/
def calculate_job_margin_fields (total_contract_amount : Option ℚ)
    (estimated_final_cost : Option ℚ) (prior_month_job_margin : Option ℚ) :
    Option ℚ × Option ℚ × Option ℚ :=
  let job_margin_at_completion : Option ℚ :=
    subOpt total_contract_amount estimated_final_cost
  let job_margin_variance : Option ℚ :=
    subOpt job_margin_at_completion prior_month_job_margin
  let job_margin_percent_sales : Option ℚ :=
    ratioPct job_margin_at_completion total_contract_amount
  (job_margin_at_completion, job_margin_variance, job_margin_percent_sales)

/-- `WIPCalculator.calculate_wip_adjustments`: returns
(`current_month_costs_in_excess_billings`,
`current_month_billings_excess_revenue`). -/
def calculate_wip_adjustments (revenue_earned : Option ℚ)
    (cost_to_date : Option ℚ) (billed_to_date : Option ℚ) :
    Option ℚ × Option ℚ :=
  match revenue_earned, cost_to_date, billed_to_date with
  | some r, some c, some b =>
      ((if r < c then some (c - r) else none),
       (if r < b then some (b - r) else none))
  | _, _, _ => (none, none)

/-- The mapping threaded through `calculate_all_fields`. -/
def Dict : Type := String → Option ℚ

/-- One `result[k] = v` style update of the mapping
(`dict.update` with a single key). -/
def Dict.upd (d : Dict) (k : String) (v : Option ℚ) : Dict :=
  fun k2 => if k2 = k then v else d k2

/-- `WIPCalculator.calculate_all_fields`: copy the input mapping and update it
with the five calculation groups in order, later groups reading derived keys
written by earlier groups. -/
def calculate_all_fields (input_data : Dict) : Dict :=
  let contract_calcs := calculate_contract_fields
    (input_data "current_month_original_contract_amount")
    (input_data "current_month_change_order_amount")
    (input_data "prior_month_total_contract_amount")
  let r1 : Dict :=
    (Dict.upd input_data "current_month_total_contract_amount" contract_calcs.1).upd
      "current_vs_prior_contract_variance" contract_calcs.2
  let cost_calcs := calculate_cost_fields
    (input_data "current_month_cost_to_date")
    (input_data "current_month_estimated_cost_to_complete")
    (input_data "prior_month_estimated_final_cost")
  let r2 : Dict :=
    (Dict.upd r1 "current_month_estimated_final_cost" cost_calcs.1).upd
      "current_vs_prior_estimated_final_cost_variance" cost_calcs.2
  let us_gaap_calcs := calculate_us_gaap_fields
    (r2 "current_month_total_contract_amount")
    (input_data "current_month_cost_to_date")
    (r2 "current_month_estimated_final_cost")
  let r3 : Dict :=
    (((Dict.upd r2 "us_gaap_percent_completion" us_gaap_calcs.1).upd
        "revenue_earned_to_date_us_gaap" us_gaap_calcs.2.1).upd
        "estimated_job_margin_to_date_us_gaap" us_gaap_calcs.2.2.1).upd
        "estimated_job_margin_to_date_percent_sales" us_gaap_calcs.2.2.2
  let job_margin_calcs := calculate_job_margin_fields
    (r3 "current_month_total_contract_amount")
    (r3 "current_month_estimated_final_cost")
    (input_data "prior_month_estimated_job_margin_at_completion")
  let r4 : Dict :=
    ((Dict.upd r3 "current_month_estimated_job_margin_at_completion"
        job_margin_calcs.1).upd
        "current_vs_prior_estimated_job_margin" job_margin_calcs.2.1).upd
        "current_month_estimated_job_margin_percent_sales" job_margin_calcs.2.2
  let wip_calcs := calculate_wip_adjustments
    (r4 "revenue_earned_to_date_us_gaap")
    (input_data "current_month_cost_to_date")
    (input_data "current_month_revenue_billed_to_date")
  (Dict.upd r4 "current_month_costs_in_excess_billings" wip_calcs.1).upd
    "current_month_billings_excess_revenue" wip_calcs.2

/-- The four snapshot fields read by `WIPService._detect_significant_changes`
(`key_fields` in the source). -/
structure Snapshot where
  current_month_total_contract_amount : Option ℚ
  current_month_estimated_final_cost : Option ℚ
  current_month_estimated_job_margin_at_completion : Option ℚ
  us_gaap_percent_completion : Option ℚ

/-- The report returned by `_detect_significant_changes`: a per-field
`{field}_changed` entry (absent when the guard did not fire) and the overall
`has_significant_changes` flag. -/
structure ChangeReport where
  total_contract_changed : Option Bool
  estimated_final_cost_changed : Option Bool
  job_margin_changed : Option Bool
  percent_completion_changed : Option Bool
  has_significant_changes : Bool
deriving DecidableEq

/-- Loop body of `_detect_significant_changes` for one tracked field:
`if current_val and prior_val and prior_val != 0:` (Python truthiness, so a
`None` or a zero on either side skips the field; the explicit `prior_val != 0`
is subsumed by the truthiness of `prior_val`), then
`changes[...] = change_percent > threshold_percent`. -/
def changeFlag (current_val prior_val : Option ℚ) (threshold_percent : ℚ) :
    Option Bool :=
  match current_val, prior_val with
  | some c, some p =>
      if c ≠ 0 ∧ p ≠ 0 then some (decide (threshold_percent < |(c - p) / p * 100|))
      else none
  | _, _ => none

/-- `WIPService._detect_significant_changes`: `None` snapshots short-circuit to
`{has_significant_changes: False}`; otherwise each tracked field is checked and
`has_significant_changes = any(changes.values())`. -/
def detect_significant_changes (current prior : Option Snapshot)
    (threshold_percent : ℚ) : ChangeReport :=
  match current, prior with
  | some c, some p =>
      let f1 := changeFlag c.current_month_total_contract_amount
        p.current_month_total_contract_amount threshold_percent
      let f2 := changeFlag c.current_month_estimated_final_cost
        p.current_month_estimated_final_cost threshold_percent
      let f3 := changeFlag c.current_month_estimated_job_margin_at_completion
        p.current_month_estimated_job_margin_at_completion threshold_percent
      let f4 := changeFlag c.us_gaap_percent_completion
        p.us_gaap_percent_completion threshold_percent
      ⟨f1, f2, f3, f4,
        f1.getD false || f2.getD false || f3.getD false || f4.getD false⟩
  | _, _ => ⟨none, none, none, none, false⟩

/-! Reading lemmas: the value of each derived key in the output of
`calculate_all_fields`, expressed through the group functions. -/

lemma upd_same (d : Dict) (k : String) (v : Option ℚ) : Dict.upd d k v k = v := by
  simp [Dict.upd]

lemma upd_ne (d : Dict) (k k2 : String) (v : Option ℚ) (h : k2 ≠ k) :
    Dict.upd d k v k2 = d k2 := by
  simp [Dict.upd, h]

/-- Shorthand for the contract-group result inside the cascade. -/
def contractOf (d : Dict) : Option ℚ × Option ℚ :=
  calculate_contract_fields
    (d "current_month_original_contract_amount")
    (d "current_month_change_order_amount")
    (d "prior_month_total_contract_amount")

/-- Shorthand for the cost-group result inside the cascade. -/
def costOf (d : Dict) : Option ℚ × Option ℚ :=
  calculate_cost_fields
    (d "current_month_cost_to_date")
    (d "current_month_estimated_cost_to_complete")
    (d "prior_month_estimated_final_cost")

/-- Shorthand for the US-GAAP-group result inside the cascade. -/
def gaapOf (d : Dict) : Option ℚ × Option ℚ × Option ℚ × Option ℚ :=
  calculate_us_gaap_fields (contractOf d).1 (d "current_month_cost_to_date")
    (costOf d).1

/-- Shorthand for the job-margin-group result inside the cascade. -/
def jobMarginOf (d : Dict) : Option ℚ × Option ℚ × Option ℚ :=
  calculate_job_margin_fields (contractOf d).1 (costOf d).1
    (d "prior_month_estimated_job_margin_at_completion")

/-- Shorthand for the WIP-adjustment-group result inside the cascade. -/
def wipOf (d : Dict) : Option ℚ × Option ℚ :=
  calculate_wip_adjustments (gaapOf d).2.1 (d "current_month_cost_to_date")
    (d "current_month_revenue_billed_to_date")

lemma calcAll_total_contract (d : Dict) :
    calculate_all_fields d "current_month_total_contract_amount" =
      (contractOf d).1 := rfl

lemma calcAll_contract_variance (d : Dict) :
    calculate_all_fields d "current_vs_prior_contract_variance" =
      (contractOf d).2 := rfl

lemma calcAll_efc (d : Dict) :
    calculate_all_fields d "current_month_estimated_final_cost" =
      (costOf d).1 := rfl

lemma calcAll_efc_variance (d : Dict) :
    calculate_all_fields d "current_vs_prior_estimated_final_cost_variance" =
      (costOf d).2 := rfl

lemma calcAll_pc (d : Dict) :
    calculate_all_fields d "us_gaap_percent_completion" = (gaapOf d).1 := rfl

lemma calcAll_revenue (d : Dict) :
    calculate_all_fields d "revenue_earned_to_date_us_gaap" =
      (gaapOf d).2.1 := rfl

lemma calcAll_jm_to_date (d : Dict) :
    calculate_all_fields d "estimated_job_margin_to_date_us_gaap" =
      (gaapOf d).2.2.1 := rfl

lemma calcAll_jm_percent_sales (d : Dict) :
    calculate_all_fields d "estimated_job_margin_to_date_percent_sales" =
      (gaapOf d).2.2.2 := rfl

lemma calcAll_jmac (d : Dict) :
    calculate_all_fields d "current_month_estimated_job_margin_at_completion" =
      (jobMarginOf d).1 := rfl

lemma calcAll_jm_variance (d : Dict) :
    calculate_all_fields d "current_vs_prior_estimated_job_margin" =
      (jobMarginOf d).2.1 := rfl

lemma calcAll_jm_percent_contract (d : Dict) :
    calculate_all_fields d "current_month_estimated_job_margin_percent_sales" =
      (jobMarginOf d).2.2 := rfl

lemma calcAll_costs_in_excess (d : Dict) :
    calculate_all_fields d "current_month_costs_in_excess_billings" =
      (wipOf d).1 := rfl

lemma calcAll_billings_in_excess (d : Dict) :
    calculate_all_fields d "current_month_billings_excess_revenue" =
      (wipOf d).2 := rfl

/-! Concrete cascade inputs used by the scenario and counterexample theorems. -/

/-- Scenario: `original=1,000,000`, `change_orders=50,000`, no prior data. -/
def scenario1Input : Dict := fun k =>
  if k = "current_month_original_contract_amount" then some 1000000
  else if k = "current_month_change_order_amount" then some 50000
  else none

/-- Scenario: `original=1,000,000`, `change_orders=50,000`,
`cost_to_date=300,000`, `estimated_cost_to_complete=700,000`. -/
def scenario2Input : Dict := fun k =>
  if k = "current_month_original_contract_amount" then some 1000000
  else if k = "current_month_change_order_amount" then some 50000
  else if k = "current_month_cost_to_date" then some 300000
  else if k = "current_month_estimated_cost_to_complete" then some 700000
  else none

/-- An input on which both WIP-adjustment branches fire: contract 50,
`cost_to_date=60`, `estimated_cost_to_complete=40` (so
`estimated_final_cost=100`, `percent_completion=60`, revenue earned 30) and
`revenue_billed_to_date=40`. -/
def bothExcessInput : Dict := fun k =>
  if k = "current_month_original_contract_amount" then some 50
  else if k = "current_month_change_order_amount" then some 0
  else if k = "current_month_cost_to_date" then some 60
  else if k = "current_month_estimated_cost_to_complete" then some 40
  else if k = "current_month_revenue_billed_to_date" then some 40
  else none

/-- An input with a negative `estimated_cost_to_complete`: contract 100,
`cost_to_date=100`, `estimated_cost_to_complete=-50`, so
`estimated_final_cost=50 > 0` and `percent_completion=200`. -/
def negEctcInput : Dict := fun k =>
  if k = "current_month_original_contract_amount" then some 100
  else if k = "current_month_change_order_amount" then some 0
  else if k = "current_month_cost_to_date" then some 100
  else if k = "current_month_estimated_cost_to_complete" then some (-50)
  else none

/-! Properties of the banker's rounding underlying `quantize2`. -/

lemma rndHalfEven_mem (y : ℚ) :
    rndHalfEven y = ⌊y⌋ ∨ rndHalfEven y = ⌊y⌋ + 1 := by
  unfold rndHalfEven
  split_ifs <;> simp

lemma rndHalfEven_spec (y : ℚ) :
    |y - (rndHalfEven y : ℚ)| ≤ 1/2 ∧
      (|y - (rndHalfEven y : ℚ)| = 1/2 → Even (rndHalfEven y)) := by
  have h0 : (⌊y⌋ : ℚ) ≤ y := Int.floor_le y
  have h1 : y < (⌊y⌋ : ℚ) + 1 := Int.lt_floor_add_one y
  unfold rndHalfEven
  split_ifs with hc1 hc2 hc3
  · constructor
    · rw [abs_of_nonneg (by linarith)]; linarith
    · intro habs
      rw [abs_of_nonneg (by linarith)] at habs; linarith
  · constructor
    · push_cast
      rw [abs_of_nonpos (by linarith)]; linarith
    · intro habs
      push_cast at habs
      rw [abs_of_nonpos (by linarith)] at habs; linarith
  · have hr : y - (⌊y⌋ : ℚ) = 1/2 := by linarith
    constructor
    · rw [abs_of_nonneg (by linarith)]; linarith
    · intro _; exact hc3
  · have hr : y - (⌊y⌋ : ℚ) = 1/2 := by linarith
    constructor
    · push_cast
      rw [abs_of_nonpos (by linarith)]; linarith
    · intro _
      exact (Int.even_add_one).mpr hc3

lemma rndHalfEven_ge (y : ℚ) (m : ℤ) (h : (m : ℚ) ≤ y) : m ≤ rndHalfEven y := by
  have hfl : m ≤ ⌊y⌋ := Int.le_floor.mpr h
  rcases rndHalfEven_mem y with he | he <;> omega

lemma rndHalfEven_le (y : ℚ) (m : ℤ) (h : y ≤ (m : ℚ)) : rndHalfEven y ≤ m := by
  have h0 : (⌊y⌋ : ℚ) ≤ y := Int.floor_le y
  have hfl : ⌊y⌋ ≤ m := by
    exact_mod_cast Int.floor_le_floor h |>.trans_eq (Int.floor_intCast m)
  unfold rndHalfEven
  split_ifs with hc1 hc2 hc3
  · exact hfl
  · have h2 : (⌊y⌋ : ℚ) < (m : ℚ) := by linarith
    have hlt : ⌊y⌋ < m := by exact_mod_cast h2
    omega
  · exact hfl
  · have hr : y - (⌊y⌋ : ℚ) = 1/2 := by linarith
    have : (⌊y⌋ : ℚ) + 1/2 ≤ (m : ℚ) := by linarith
    have hlt : (⌊y⌋ : ℚ) < (m : ℚ) := by linarith
    have : ⌊y⌋ < m := by exact_mod_cast hlt
    omega

lemma quantize2_bounds (y : ℚ) (h0 : 0 ≤ y) (h1 : y ≤ 100) :
    0 ≤ quantize2 y ∧ quantize2 y ≤ 100 := by
  have hge : (0 : ℤ) ≤ rndHalfEven (y * 100) :=
    rndHalfEven_ge (y * 100) 0 (by push_cast; linarith)
  have hle : rndHalfEven (y * 100) ≤ (10000 : ℤ) :=
    rndHalfEven_le (y * 100) 10000 (by push_cast; linarith)
  unfold quantize2
  constructor
  · positivity
  · rw [div_le_iff₀ (by norm_num)]
    calc ((rndHalfEven (y * 100) : ℚ)) ≤ (10000 : ℚ) := by exact_mod_cast hle
    _ = 100 * 100 := by norm_num

/-! Claim theorems. -/

/-- C1: in the cascade, `percent_completion` equals
`quantize2(cost_to_date / estimated_final_cost * 100)` whenever `cost_to_date`
is present and `estimated_final_cost` is present and strictly positive, and is
absent otherwise; when `estimated_final_cost` is absent or not strictly
positive (in particular zero), `percent_completion` and consequently
`revenue_earned_to_date` are absent.  The function is total, so no error can
be raised. -/
theorem percent_completion_div_guard (total cost efc : Option ℚ) :
    (∀ c e, cost = some c → efc = some e → 0 < e →
      (calculate_us_gaap_fields total cost efc).1 =
        some (quantize2 (c / e * 100))) ∧
    (cost = none → (calculate_us_gaap_fields total cost efc).1 = none) ∧
    (efc = none → (calculate_us_gaap_fields total cost efc).1 = none ∧
      (calculate_us_gaap_fields total cost efc).2.1 = none) ∧
    (∀ e, efc = some e → e ≤ 0 →
      (calculate_us_gaap_fields total cost efc).1 = none ∧
      (calculate_us_gaap_fields total cost efc).2.1 = none) := by
  refine ⟨?_, ?_, ?_, ?_⟩
  · rintro c e rfl rfl he
    simp [calculate_us_gaap_fields, ratioPct, he]
  · rintro rfl
    cases efc <;>
      simp [calculate_us_gaap_fields, ratioPct, revenueCalc]
  · rintro rfl
    cases cost <;> cases total <;>
      simp [calculate_us_gaap_fields, ratioPct, revenueCalc]
  · rintro e rfl he
    have hne : ¬ (0 < e) := not_lt.mpr he
    cases cost <;> cases total <;>
      simp [calculate_us_gaap_fields, ratioPct, revenueCalc, hne]

/-- Witness for C1 at scenario inputs: cost 300,000 over estimated final cost
1,000,000 gives a 30.00 percent completion. -/
theorem percent_completion_div_guard_witness :
    (calculate_us_gaap_fields (some 1050000) (some 300000) (some 1000000)).1 =
      some (quantize2 ((300000 : ℚ) / 1000000 * 100)) :=
  (percent_completion_div_guard (some 1050000) (some 300000)
    (some 1000000)).1 300000 1000000 rfl rfl (by norm_num)

/-- C6: `total_contract_amount` is `original + change_orders` when both are
present, `original` when only the original is present, and absent when the
original is absent (in particular when only `change_order_amount` is present);
on the concrete scenario `original=1,000,000`, `change_orders=50,000`, no
prior snapshot, the cascade yields `total_contract_amount = 1,050,000` and an
absent `contract_variance_vs_prior`. -/
theorem total_contract_formula (o c p : Option ℚ) :
    (∀ x y, o = some x → c = some y →
      (calculate_contract_fields o c p).1 = some (x + y)) ∧
    (∀ x, o = some x → c = none →
      (calculate_contract_fields o c p).1 = some x) ∧
    (o = none → (calculate_contract_fields o c p).1 = none) ∧
    (calculate_all_fields scenario1Input "current_month_total_contract_amount" =
        some 1050000 ∧
      calculate_all_fields scenario1Input "current_vs_prior_contract_variance" =
        none) := by
  refine ⟨?_, ?_, ?_, ?_, ?_⟩
  · rintro x y rfl rfl; rfl
  · rintro x rfl rfl; rfl
  · rintro rfl; cases c <;> rfl
  · rw [calcAll_total_contract]
    show some ((1000000 : ℚ) + 50000) = some 1050000
    norm_num
  · rw [calcAll_contract_variance]
    rfl

/-- Witness for C6: 1,000,000 + 50,000 = 1,050,000. -/
theorem total_contract_formula_witness :
    (calculate_contract_fields (some 1000000) (some 50000) none).1 =
      some ((1000000 : ℚ) + 50000) :=
  (total_contract_formula (some 1000000) (some 50000) none).1
    1000000 50000 rfl rfl

/-- C9: the cascade passes `current_month_addl_entry_required` through
unchanged: no calculation group writes that key, so its value in the output of
`calculate_all_fields` is the value supplied in the input mapping. -/
theorem addl_entry_passthrough (d : Dict) :
    calculate_all_fields d "current_month_addl_entry_required" =
      d "current_month_addl_entry_required" := rfl

/-- C10: when either snapshot handed to `_detect_significant_changes` is
`None`, the comparator returns exactly `{has_significant_changes: False}` with
no per-field change entries. -/
theorem comparator_missing_snapshot (current prior : Option Snapshot) (t : ℚ)
    (h : current = none ∨ prior = none) :
    detect_significant_changes current prior t =
      ⟨none, none, none, none, false⟩ := by
  rcases h with rfl | rfl
  · rfl
  · cases current <;> rfl

/-- Witness for C10 with both snapshots missing. -/
theorem comparator_missing_snapshot_witness :
    detect_significant_changes none none 5 =
      ⟨none, none, none, none, false⟩ :=
  comparator_missing_snapshot none none 5 (Or.inl rfl)

lemma changeFlag_mono (cv pv : Option ℚ) (t1 t2 : ℚ) (h : t1 ≤ t2)
    (hf : changeFlag cv pv t2 = some true) :
    changeFlag cv pv t1 = some true := by
  cases cv with
  | none => simp [changeFlag] at hf
  | some c =>
    cases pv with
    | none => simp [changeFlag] at hf
    | some p =>
      by_cases hz : c ≠ 0 ∧ p ≠ 0
      · simp only [changeFlag, if_pos hz, Option.some.injEq,
          decide_eq_true_iff] at hf ⊢
        linarith
      · simp [changeFlag, if_neg hz] at hf

/-- C8: threshold monotonicity of the comparator — for thresholds `t1 ≤ t2`,
every tracked field flagged as significant at `t2` is also flagged at `t1`. -/
theorem threshold_monotonicity (current prior : Option Snapshot) (t1 t2 : ℚ)
    (h : t1 ≤ t2) :
    ((detect_significant_changes current prior t2).total_contract_changed =
        some true →
      (detect_significant_changes current prior t1).total_contract_changed =
        some true) ∧
    ((detect_significant_changes current prior t2).estimated_final_cost_changed =
        some true →
      (detect_significant_changes current prior t1).estimated_final_cost_changed =
        some true) ∧
    ((detect_significant_changes current prior t2).job_margin_changed =
        some true →
      (detect_significant_changes current prior t1).job_margin_changed =
        some true) ∧
    ((detect_significant_changes current prior t2).percent_completion_changed =
        some true →
      (detect_significant_changes current prior t1).percent_completion_changed =
        some true) := by
  cases current with
  | none => exact ⟨fun hf => by simp [detect_significant_changes] at hf,
      fun hf => by simp [detect_significant_changes] at hf,
      fun hf => by simp [detect_significant_changes] at hf,
      fun hf => by simp [detect_significant_changes] at hf⟩
  | some c =>
    cases prior with
    | none => exact ⟨fun hf => by simp [detect_significant_changes] at hf,
        fun hf => by simp [detect_significant_changes] at hf,
        fun hf => by simp [detect_significant_changes] at hf,
        fun hf => by simp [detect_significant_changes] at hf⟩
    | some p =>
      refine ⟨fun hf => ?_, fun hf => ?_, fun hf => ?_, fun hf => ?_⟩ <;>
        exact changeFlag_mono _ _ t1 t2 h hf

lemma addOpt_none_left (b : Option ℚ) : addOpt none b = none := by
  cases b <;> rfl

lemma addOpt_none_right (a : Option ℚ) : addOpt a none = none := by
  cases a <;> rfl

lemma subOpt_none_left (b : Option ℚ) : subOpt none b = none := by
  cases b <;> rfl

lemma subOpt_none_right (a : Option ℚ) : subOpt a none = none := by
  cases a <;> rfl

lemma ratioPct_none_left (b : Option ℚ) : ratioPct none b = none := by
  cases b <;> rfl

lemma ratioPct_none_right (a : Option ℚ) : ratioPct a none = none := by
  cases a <;> rfl

lemma revenueCalc_none_left (b : Option ℚ) : revenueCalc none b = none := by
  cases b <;> rfl

lemma revenueCalc_none_right (a : Option ℚ) : revenueCalc a none = none := by
  cases a <;> rfl

lemma totalContractCalc_none_left (b : Option ℚ) :
    totalContractCalc none b = none := by
  cases b <;> rfl

lemma calculate_wip_adjustments_none (r c b : Option ℚ)
    (h : r = none ∨ c = none ∨ b = none) :
    calculate_wip_adjustments r c b = (none, none) := by
  rcases h with rfl | rfl | rfl
  · cases c <;> cases b <;> rfl
  · cases r <;> cases b <;> rfl
  · cases r <;> cases c <;> rfl

/-- C2 counterexample: with contract 50, `cost_to_date=60`,
`estimated_cost_to_complete=40` and `revenue_billed_to_date=40`, revenue
earned is 30 and the cascade sets both `costs_in_excess_of_billings = 30` and
`billings_in_excess_of_revenue = 10` — the two WIP-adjustment fields are both
present, refuting mutual exclusivity. -/
theorem wip_adjustments_both_present_example :
    calculate_all_fields bothExcessInput
        "current_month_costs_in_excess_billings" = some 30 ∧
      calculate_all_fields bothExcessInput
        "current_month_billings_excess_revenue" = some 10 := by
  have hpc : ratioPct (some 60) (addOpt (some 60) (some 40)) = some 60 := by
    simp only [addOpt, ratioPct]
    rw [if_pos (by norm_num)]
    norm_num [quantize2, rndHalfEven]
  have hrev : revenueCalc (totalContractCalc (some 50) (some 0)) (some 60) =
      some 30 := by
    simp only [totalContractCalc, revenueCalc]
    norm_num [quantize2, rndHalfEven]
  have hwip : wipOf bothExcessInput = (some 30, some 10) := by
    show calculate_wip_adjustments
        (revenueCalc (totalContractCalc (some 50) (some 0))
          (ratioPct (some 60) (addOpt (some 60) (some 40))))
        (some 60) (some 40) = (some 30, some 10)
    rw [hpc, hrev]
    simp only [calculate_wip_adjustments]
    norm_num
  constructor
  · rw [calcAll_costs_in_excess, hwip]
  · rw [calcAll_billings_in_excess, hwip]

/-- C2 as amended: the two WIP-adjustment fields of the cascade are not
mutually exclusive — they are both present exactly when revenue earned,
cost to date and billed to date are all present and cost to date and billed to
date each strictly exceed revenue earned. -/
theorem wip_adjustments_both_present_iff (d : Dict) :
    ((calculate_all_fields d "current_month_costs_in_excess_billings").isSome ∧
      (calculate_all_fields d "current_month_billings_excess_revenue").isSome) ↔
    (∃ r c b, (calculate_all_fields d "revenue_earned_to_date_us_gaap") = some r ∧
      d "current_month_cost_to_date" = some c ∧
      d "current_month_revenue_billed_to_date" = some b ∧ r < c ∧ r < b) := by
  rw [calcAll_costs_in_excess, calcAll_billings_in_excess, calcAll_revenue]
  show ((calculate_wip_adjustments (gaapOf d).2.1 (d "current_month_cost_to_date")
          (d "current_month_revenue_billed_to_date")).1.isSome ∧
        (calculate_wip_adjustments (gaapOf d).2.1 (d "current_month_cost_to_date")
          (d "current_month_revenue_billed_to_date")).2.isSome) ↔ _
  cases hr : (gaapOf d).2.1 with
  | none =>
    cases d "current_month_cost_to_date" <;>
      cases d "current_month_revenue_billed_to_date" <;>
        simp [calculate_wip_adjustments]
  | some r =>
    cases hc : d "current_month_cost_to_date" with
    | none =>
      cases d "current_month_revenue_billed_to_date" <;>
        simp [calculate_wip_adjustments]
    | some c =>
      cases hb : d "current_month_revenue_billed_to_date" with
      | none => simp [calculate_wip_adjustments]
      | some b =>
        simp only [calculate_wip_adjustments, Option.some.injEq]
        constructor
        · rintro ⟨h1, h2⟩
          refine ⟨r, c, b, rfl, rfl, rfl, ?_, ?_⟩
          · by_contra hlt
            rw [if_neg hlt] at h1
            simp at h1
          · by_contra hlt
            rw [if_neg hlt] at h2
            simp at h2
        · rintro ⟨r2, c2, b2, hr2, hc2, hb2, hlt1, hlt2⟩
          obtain rfl : r2 = r := hr2.symm
          obtain rfl : c2 = c := hc2.symm
          obtain rfl : b2 = b := hb2.symm
          rw [if_pos hlt1, if_pos hlt2]
          exact ⟨rfl, rfl⟩

/-- C3 counterexample: with `cost_to_date=125` and `estimated_final_cost=100000`
the exact ratio is 0.125%; the code's quantize (default `ROUND_HALF_EVEN`)
returns 0.12, while the round-half-up mode claimed by the spec would return
0.13 — so the claimed rounding mode is refuted. -/
theorem quantize_ties_not_half_up :
    (calculate_us_gaap_fields (some 1) (some 125) (some 100000)).1 =
        some (3/25) ∧
      quantize2HalfUp ((125 : ℚ) / 100000 * 100) = 13/100 ∧
      (3/25 : ℚ) ≠ 13/100 := by
  refine ⟨?_, ?_, by norm_num⟩
  · show ratioPct (some 125) (some 100000) = some (3/25)
    simp only [ratioPct]
    rw [if_pos (by norm_num)]
    norm_num [quantize2, rndHalfEven]
    rw [if_pos (by decide : Even (12 : ℤ))]
    norm_num
  · simp only [quantize2HalfUp]
    rw [if_pos (by norm_num)]
    norm_num

/-- C3 as amended: the three percentage fields are quantized to exactly 2
decimal places of the exact rational using round-half-even (banker's rounding,
the `Decimal` context default) — not round-half-up.  The first conjunct is the
half-even characterisation of `quantize2`; the remaining conjuncts show each
percentage field, when present, is `quantize2` of the exact ratio. -/
theorem percent_fields_round_half_even :
    (∀ x : ℚ, ∃ n : ℤ, quantize2 x = (n : ℚ)/100 ∧
      |x * 100 - (n : ℚ)| ≤ 1/2 ∧ (|x * 100 - (n : ℚ)| = 1/2 → Even n)) ∧
    (∀ total cost efc v, (calculate_us_gaap_fields total cost efc).1 = some v →
      ∃ c e, cost = some c ∧ efc = some e ∧ 0 < e ∧
        v = quantize2 (c / e * 100)) ∧
    (∀ total cost efc v,
      (calculate_us_gaap_fields total cost efc).2.2.2 = some v →
      ∃ j r, (calculate_us_gaap_fields total cost efc).2.2.1 = some j ∧
        (calculate_us_gaap_fields total cost efc).2.1 = some r ∧ 0 < r ∧
        v = quantize2 (j / r * 100)) ∧
    (∀ total efc pj v, (calculate_job_margin_fields total efc pj).2.2 = some v →
      ∃ j t, subOpt total efc = some j ∧ total = some t ∧ 0 < t ∧
        v = quantize2 (j / t * 100)) := by
  have hratio : ∀ a b : Option ℚ, ∀ v, ratioPct a b = some v →
      ∃ n d, a = some n ∧ b = some d ∧ 0 < d ∧ v = quantize2 (n / d * 100) := by
    intro a b v hv
    cases a with
    | none => rw [ratioPct_none_left] at hv; exact absurd hv (by simp)
    | some n =>
      cases b with
      | none => rw [ratioPct_none_right] at hv; exact absurd hv (by simp)
      | some d =>
        simp only [ratioPct] at hv
        by_cases hd : 0 < d
        · rw [if_pos hd] at hv
          exact ⟨n, d, rfl, rfl, hd, (Option.some.inj hv).symm⟩
        · rw [if_neg hd] at hv
          exact absurd hv (by simp)
  refine ⟨?_, ?_, ?_, ?_⟩
  · intro x
    refine ⟨rndHalfEven (x * 100), rfl, ?_, ?_⟩
    · have h := (rndHalfEven_spec (x * 100)).1
      rwa [abs_sub_comm] at h ⊢
    · intro habs
      exact (rndHalfEven_spec (x * 100)).2 habs
  · intro total cost efc v hv
    have h2 : ratioPct cost efc = some v := hv
    obtain ⟨c, e, hc, he, hepos, hveq⟩ := hratio _ _ _ h2
    exact ⟨c, e, hc, he, hepos, hveq⟩
  · intro total cost efc v hv
    have h2 : ratioPct (subOpt (revenueCalc total (ratioPct cost efc)) cost)
        (revenueCalc total (ratioPct cost efc)) = some v := hv
    obtain ⟨j, r, hj, hr, hrpos, hveq⟩ := hratio _ _ _ h2
    exact ⟨j, r, hj, hr, hrpos, hveq⟩
  · intro total efc pj v hv
    have h2 : ratioPct (subOpt total efc) total = some v := hv
    obtain ⟨j, t, hj, ht, htpos, hveq⟩ := hratio _ _ _ h2
    exact ⟨j, t, hj, ht, htpos, hveq⟩

/-- Witness for the amended C3 at the tie input 1/8: the quantized value is
n/100 for n = 12, within half a hundredth of the exact value, and even at the
tie. -/
theorem percent_fields_round_half_even_witness :
    ∃ n : ℤ, quantize2 (1/8) = (n : ℚ)/100 ∧
      |(1/8 : ℚ) * 100 - (n : ℚ)| ≤ 1/2 ∧
      (|(1/8 : ℚ) * 100 - (n : ℚ)| = 1/2 → Even n) :=
  percent_fields_round_half_even.1 (1/8)

/-- C4 counterexample: a current value of exactly 0 with a prior value of 100
is a 100% change, above the 5% threshold, yet Python truthiness
(`if current_val and prior_val and prior_val != 0`) skips the field: no flag
entry is produced and `has_significant_changes` is `False`. -/
theorem zero_current_value_not_flagged :
    detect_significant_changes (some ⟨some 0, none, none, none⟩)
        (some ⟨some 100, none, none, none⟩) 5 =
      ⟨none, none, none, none, false⟩ ∧
    (5 : ℚ) < |((0 : ℚ) - 100) / 100 * 100| := by
  constructor
  · simp [detect_significant_changes, changeFlag]
  · norm_num

/-- C4 as amended: a tracked field is flagged exactly when both values are
present and both are non-zero (the code's truthiness check also drops a zero
current value, not only a zero prior); when flagged the flag is the strict
comparison `abs((current - prior) / prior * 100) > threshold`; the overall
`has_significant_changes` is the OR of the produced flags. -/
theorem change_flag_truthiness (c p : Snapshot) (t : ℚ) :
    (∀ cv pv : Option ℚ, ∀ x y, cv = some x → pv = some y → x ≠ 0 → y ≠ 0 →
      changeFlag cv pv t = some (decide (t < |(x - y) / y * 100|))) ∧
    (∀ cv pv : Option ℚ,
      cv = none ∨ pv = none ∨ cv = some 0 ∨ pv = some 0 →
        changeFlag cv pv t = none) ∧
    detect_significant_changes (some c) (some p) t =
      { total_contract_changed := changeFlag
          c.current_month_total_contract_amount
          p.current_month_total_contract_amount t,
        estimated_final_cost_changed := changeFlag
          c.current_month_estimated_final_cost
          p.current_month_estimated_final_cost t,
        job_margin_changed := changeFlag
          c.current_month_estimated_job_margin_at_completion
          p.current_month_estimated_job_margin_at_completion t,
        percent_completion_changed := changeFlag
          c.us_gaap_percent_completion p.us_gaap_percent_completion t,
        has_significant_changes :=
          (changeFlag c.current_month_total_contract_amount
            p.current_month_total_contract_amount t).getD false ||
          (changeFlag c.current_month_estimated_final_cost
            p.current_month_estimated_final_cost t).getD false ||
          (changeFlag c.current_month_estimated_job_margin_at_completion
            p.current_month_estimated_job_margin_at_completion t).getD false ||
          (changeFlag c.us_gaap_percent_completion
            p.us_gaap_percent_completion t).getD false } := by
  refine ⟨?_, ?_, rfl⟩
  · rintro cv pv x y rfl rfl hx hy
    simp [changeFlag, hx, hy]
  · rintro cv pv (rfl | rfl | rfl | rfl)
    · rfl
    · cases cv <;> rfl
    · cases pv with
      | none => rfl
      | some y => simp [changeFlag]
    · cases cv with
      | none => rfl
      | some x => simp [changeFlag]

/-- Witness for the amended C4: the spec's own boundary scenario, a 5% change
against a 5% threshold, produces `some false` (strict comparison). -/
theorem change_flag_truthiness_witness :
    changeFlag (some 1050000) (some 1000000) 5 =
      some (decide ((5 : ℚ) < |((1050000 : ℚ) - 1000000) / 1000000 * 100|)) :=
  (change_flag_truthiness ⟨none, none, none, none⟩ ⟨none, none, none, none⟩
    5).1 (some 1050000) (some 1000000) 1050000 1000000 rfl rfl
    (by norm_num) (by norm_num)

/-- C7 counterexample: with `cost_to_date=100` and
`estimated_cost_to_complete=-50`, the estimated final cost is 50 > 0 and the
cascade yields `percent_completion = 200`, outside the 0–100 range. -/
theorem percent_completion_above_100_example :
    calculate_all_fields negEctcInput "us_gaap_percent_completion" =
        some 200 ∧
      ¬ ((200 : ℚ) ≤ 100) := by
  constructor
  · rw [calcAll_pc]
    show ratioPct (some 100) (addOpt (some 100) (some (-50))) = some 200
    simp only [addOpt, ratioPct]
    rw [if_pos (by norm_num)]
    norm_num [quantize2, rndHalfEven]
  · norm_num

/-- C7 as amended: whenever the raw inputs `cost_to_date` and
`estimated_cost_to_complete` are both nonnegative, a present
`percent_completion` lies in the range 0 to 100 inclusive (the unrestricted
claim fails for a negative `estimated_cost_to_complete`). -/
theorem percent_completion_range_of_nonneg (d : Dict) (c t v : ℚ)
    (hc : d "current_month_cost_to_date" = some c)
    (ht : d "current_month_estimated_cost_to_complete" = some t)
    (hc0 : 0 ≤ c) (ht0 : 0 ≤ t)
    (hv : calculate_all_fields d "us_gaap_percent_completion" = some v) :
    0 ≤ v ∧ v ≤ 100 := by
  rw [calcAll_pc] at hv
  have hv2 : ratioPct (some c) (addOpt (some c) (some t)) = some v := by
    rw [← hc, ← ht]
    exact hv
  simp only [addOpt, ratioPct] at hv2
  by_cases hpos : 0 < c + t
  · rw [if_pos hpos] at hv2
    obtain rfl : quantize2 (c / (c + t) * 100) = v := Option.some.inj hv2
    have h0y : 0 ≤ c / (c + t) * 100 := by positivity
    have h1y : c / (c + t) * 100 ≤ 100 := by
      have hle : c / (c + t) ≤ 1 := (div_le_one hpos).mpr (by linarith)
      have := mul_le_mul_of_nonneg_right hle (by norm_num : (0 : ℚ) ≤ 100)
      simpa using this
    exact quantize2_bounds _ h0y h1y
  · rw [if_neg hpos] at hv2
    exact absurd hv2 (by simp)

/-- Witness for the amended C7 at the scenario input: `percent_completion = 30`
lies within 0 and 100. -/
theorem percent_completion_range_witness : 0 ≤ (30 : ℚ) ∧ (30 : ℚ) ≤ 100 := by
  have h30 : calculate_all_fields scenario2Input "us_gaap_percent_completion" =
      some 30 := by
    rw [calcAll_pc]
    show ratioPct (some 300000) (addOpt (some 300000) (some 700000)) = some 30
    simp only [addOpt, ratioPct]
    rw [if_pos (by norm_num)]
    norm_num [quantize2, rndHalfEven]
  exact percent_completion_range_of_nonneg scenario2Input 300000 700000 30
    rfl rfl (by norm_num) (by norm_num) h30

/-- Witness for C8: a 5% contract change flagged at threshold 3 is still
flagged at threshold 2. -/
theorem threshold_monotonicity_witness :
    (detect_significant_changes (some ⟨some 1050000, none, none, none⟩)
      (some ⟨some 1000000, none, none, none⟩) 2).total_contract_changed =
      some true :=
  (threshold_monotonicity (some ⟨some 1050000, none, none, none⟩)
    (some ⟨some 1000000, none, none, none⟩) 2 3 (by norm_num)).1
    (by simp only [detect_significant_changes, changeFlag]; norm_num)

/-- C5: null-propagation through the cascade — for every derived field, if any
of its direct (required) dependency inputs is absent, the field is absent in
the output of `calculate_all_fields`; derived-on-derived dependencies are
stated against the derived key in the same output.  (For
`total_contract_amount` the required dependency is `original_contract_amount`
alone: an absent `change_order_amount` falls back to the original, per the
source's elif branch.) -/
theorem null_propagation (d : Dict) :
    (d "current_month_original_contract_amount" = none →
      calculate_all_fields d "current_month_total_contract_amount" = none) ∧
    (calculate_all_fields d "current_month_total_contract_amount" = none →
      calculate_all_fields d "current_vs_prior_contract_variance" = none) ∧
    (d "prior_month_total_contract_amount" = none →
      calculate_all_fields d "current_vs_prior_contract_variance" = none) ∧
    (d "current_month_cost_to_date" = none →
      calculate_all_fields d "current_month_estimated_final_cost" = none) ∧
    (d "current_month_estimated_cost_to_complete" = none →
      calculate_all_fields d "current_month_estimated_final_cost" = none) ∧
    (calculate_all_fields d "current_month_estimated_final_cost" = none →
      calculate_all_fields d "current_vs_prior_estimated_final_cost_variance" =
        none) ∧
    (d "prior_month_estimated_final_cost" = none →
      calculate_all_fields d "current_vs_prior_estimated_final_cost_variance" =
        none) ∧
    (d "current_month_cost_to_date" = none →
      calculate_all_fields d "us_gaap_percent_completion" = none) ∧
    (calculate_all_fields d "current_month_estimated_final_cost" = none →
      calculate_all_fields d "us_gaap_percent_completion" = none) ∧
    (calculate_all_fields d "current_month_total_contract_amount" = none →
      calculate_all_fields d "revenue_earned_to_date_us_gaap" = none) ∧
    (calculate_all_fields d "us_gaap_percent_completion" = none →
      calculate_all_fields d "revenue_earned_to_date_us_gaap" = none) ∧
    (calculate_all_fields d "revenue_earned_to_date_us_gaap" = none →
      calculate_all_fields d "estimated_job_margin_to_date_us_gaap" = none) ∧
    (d "current_month_cost_to_date" = none →
      calculate_all_fields d "estimated_job_margin_to_date_us_gaap" = none) ∧
    (calculate_all_fields d "estimated_job_margin_to_date_us_gaap" = none →
      calculate_all_fields d "estimated_job_margin_to_date_percent_sales" =
        none) ∧
    (calculate_all_fields d "revenue_earned_to_date_us_gaap" = none →
      calculate_all_fields d "estimated_job_margin_to_date_percent_sales" =
        none) ∧
    (calculate_all_fields d "current_month_total_contract_amount" = none →
      calculate_all_fields d
        "current_month_estimated_job_margin_at_completion" = none) ∧
    (calculate_all_fields d "current_month_estimated_final_cost" = none →
      calculate_all_fields d
        "current_month_estimated_job_margin_at_completion" = none) ∧
    (calculate_all_fields d "current_month_estimated_job_margin_at_completion" =
        none →
      calculate_all_fields d "current_vs_prior_estimated_job_margin" = none) ∧
    (d "prior_month_estimated_job_margin_at_completion" = none →
      calculate_all_fields d "current_vs_prior_estimated_job_margin" = none) ∧
    (calculate_all_fields d "current_month_estimated_job_margin_at_completion" =
        none →
      calculate_all_fields d
        "current_month_estimated_job_margin_percent_sales" = none) ∧
    (calculate_all_fields d "current_month_total_contract_amount" = none →
      calculate_all_fields d
        "current_month_estimated_job_margin_percent_sales" = none) ∧
    (calculate_all_fields d "revenue_earned_to_date_us_gaap" = none →
      calculate_all_fields d "current_month_costs_in_excess_billings" = none) ∧
    (d "current_month_cost_to_date" = none →
      calculate_all_fields d "current_month_costs_in_excess_billings" = none) ∧
    (d "current_month_revenue_billed_to_date" = none →
      calculate_all_fields d "current_month_costs_in_excess_billings" = none) ∧
    (calculate_all_fields d "revenue_earned_to_date_us_gaap" = none →
      calculate_all_fields d "current_month_billings_excess_revenue" = none) ∧
    (d "current_month_cost_to_date" = none →
      calculate_all_fields d "current_month_billings_excess_revenue" = none) ∧
    (d "current_month_revenue_billed_to_date" = none →
      calculate_all_fields d "current_month_billings_excess_revenue" = none) := by
  refine ⟨?_, ?_, ?_, ?_, ?_, ?_, ?_, ?_, ?_, ?_, ?_, ?_, ?_, ?_, ?_, ?_, ?_,
    ?_, ?_, ?_, ?_, ?_, ?_, ?_, ?_, ?_, ?_⟩
  · intro h
    rw [calcAll_total_contract]
    show totalContractCalc (d "current_month_original_contract_amount")
      (d "current_month_change_order_amount") = none
    rw [h]
    exact totalContractCalc_none_left _
  · intro h
    rw [calcAll_total_contract] at h
    rw [calcAll_contract_variance]
    show subOpt (contractOf d).1 (d "prior_month_total_contract_amount") = none
    rw [h]
    exact subOpt_none_left _
  · intro h
    rw [calcAll_contract_variance]
    show subOpt (contractOf d).1 (d "prior_month_total_contract_amount") = none
    rw [h]
    exact subOpt_none_right _
  · intro h
    rw [calcAll_efc]
    show addOpt (d "current_month_cost_to_date")
      (d "current_month_estimated_cost_to_complete") = none
    rw [h]
    exact addOpt_none_left _
  · intro h
    rw [calcAll_efc]
    show addOpt (d "current_month_cost_to_date")
      (d "current_month_estimated_cost_to_complete") = none
    rw [h]
    exact addOpt_none_right _
  · intro h
    rw [calcAll_efc] at h
    rw [calcAll_efc_variance]
    show subOpt (costOf d).1 (d "prior_month_estimated_final_cost") = none
    rw [h]
    exact subOpt_none_left _
  · intro h
    rw [calcAll_efc_variance]
    show subOpt (costOf d).1 (d "prior_month_estimated_final_cost") = none
    rw [h]
    exact subOpt_none_right _
  · intro h
    rw [calcAll_pc]
    show ratioPct (d "current_month_cost_to_date") (costOf d).1 = none
    rw [h]
    exact ratioPct_none_left _
  · intro h
    rw [calcAll_efc] at h
    rw [calcAll_pc]
    show ratioPct (d "current_month_cost_to_date") (costOf d).1 = none
    rw [h]
    exact ratioPct_none_right _
  · intro h
    rw [calcAll_total_contract] at h
    rw [calcAll_revenue]
    show revenueCalc (contractOf d).1 (gaapOf d).1 = none
    rw [h]
    exact revenueCalc_none_left _
  · intro h
    rw [calcAll_pc] at h
    rw [calcAll_revenue]
    show revenueCalc (contractOf d).1 (gaapOf d).1 = none
    rw [h]
    exact revenueCalc_none_right _
  · intro h
    rw [calcAll_revenue] at h
    rw [calcAll_jm_to_date]
    show subOpt (gaapOf d).2.1 (d "current_month_cost_to_date") = none
    rw [h]
    exact subOpt_none_left _
  · intro h
    rw [calcAll_jm_to_date]
    show subOpt (gaapOf d).2.1 (d "current_month_cost_to_date") = none
    rw [h]
    exact subOpt_none_right _
  · intro h
    rw [calcAll_jm_to_date] at h
    rw [calcAll_jm_percent_sales]
    show ratioPct (gaapOf d).2.2.1 (gaapOf d).2.1 = none
    rw [h]
    exact ratioPct_none_left _
  · intro h
    rw [calcAll_revenue] at h
    rw [calcAll_jm_percent_sales]
    show ratioPct (gaapOf d).2.2.1 (gaapOf d).2.1 = none
    rw [h]
    exact ratioPct_none_right _
  · intro h
    rw [calcAll_total_contract] at h
    rw [calcAll_jmac]
    show subOpt (contractOf d).1 (costOf d).1 = none
    rw [h]
    exact subOpt_none_left _
  · intro h
    rw [calcAll_efc] at h
    rw [calcAll_jmac]
    show subOpt (contractOf d).1 (costOf d).1 = none
    rw [h]
    exact subOpt_none_right _
  · intro h
    rw [calcAll_jmac] at h
    rw [calcAll_jm_variance]
    show subOpt (jobMarginOf d).1
      (d "prior_month_estimated_job_margin_at_completion") = none
    rw [h]
    exact subOpt_none_left _
  · intro h
    rw [calcAll_jm_variance]
    show subOpt (jobMarginOf d).1
      (d "prior_month_estimated_job_margin_at_completion") = none
    rw [h]
    exact subOpt_none_right _
  · intro h
    rw [calcAll_jmac] at h
    rw [calcAll_jm_percent_contract]
    show ratioPct (jobMarginOf d).1 (contractOf d).1 = none
    rw [h]
    exact ratioPct_none_left _
  · intro h
    rw [calcAll_total_contract] at h
    rw [calcAll_jm_percent_contract]
    show ratioPct (jobMarginOf d).1 (contractOf d).1 = none
    rw [h]
    exact ratioPct_none_right _
  · intro h
    rw [calcAll_revenue] at h
    rw [calcAll_costs_in_excess]
    show (calculate_wip_adjustments (gaapOf d).2.1
      (d "current_month_cost_to_date")
      (d "current_month_revenue_billed_to_date")).1 = none
    rw [calculate_wip_adjustments_none _ _ _ (Or.inl h)]
  · intro h
    rw [calcAll_costs_in_excess]
    show (calculate_wip_adjustments (gaapOf d).2.1
      (d "current_month_cost_to_date")
      (d "current_month_revenue_billed_to_date")).1 = none
    rw [calculate_wip_adjustments_none _ _ _ (Or.inr (Or.inl h))]
  · intro h
    rw [calcAll_costs_in_excess]
    show (calculate_wip_adjustments (gaapOf d).2.1
      (d "current_month_cost_to_date")
      (d "current_month_revenue_billed_to_date")).1 = none
    rw [calculate_wip_adjustments_none _ _ _ (Or.inr (Or.inr h))]
  · intro h
    rw [calcAll_revenue] at h
    rw [calcAll_billings_in_excess]
    show (calculate_wip_adjustments (gaapOf d).2.1
      (d "current_month_cost_to_date")
      (d "current_month_revenue_billed_to_date")).2 = none
    rw [calculate_wip_adjustments_none _ _ _ (Or.inl h)]
  · intro h
    rw [calcAll_billings_in_excess]
    show (calculate_wip_adjustments (gaapOf d).2.1
      (d "current_month_cost_to_date")
      (d "current_month_revenue_billed_to_date")).2 = none
    rw [calculate_wip_adjustments_none _ _ _ (Or.inr (Or.inl h))]
  · intro h
    rw [calcAll_billings_in_excess]
    show (calculate_wip_adjustments (gaapOf d).2.1
      (d "current_month_cost_to_date")
      (d "current_month_revenue_billed_to_date")).2 = none
    rw [calculate_wip_adjustments_none _ _ _ (Or.inr (Or.inr h))]

/-- Witness for C5 on the empty input: with no original contract amount the
total contract amount is absent. -/
theorem null_propagation_witness :
    calculate_all_fields (fun _ => none) "current_month_total_contract_amount" =
      none :=
  (null_propagation (fun _ => none)).1 rfl

end WIP
